import Mathlib

/-!
Verification development for the Adzuna job-search gateway (`server.py`).

The gateway republishes an upstream job-search HTTP API as local routes.
We embed the request-translation and response-normalization layer:

* `Json` models the parsed JSON values Python's `response.json()` yields
  (dicts become ordered association lists, as CPython preserves insertion
  order and produces unique keys).
* `remove_class_fields` embeds the recursive `__CLASS__`-stripping
  normalizer from `server.py`.
* Each route handler (`search_jobs`, `get_categories`, …) is embedded as a
  pure function from the credentials, the validated query parameters and
  the outcome of the single outbound HTTP call to the handler's result
  paired with the list of outbound requests it issued.
-/

namespace Adzuna

/-- Parsed JSON values. Python dict → `obj` (insertion-ordered association
list with unique keys), list → `arr`; numbers are modelled as integers,
which covers every payload the claims touch. -/
inductive Json where
  | null : Json
  | bool (b : Bool) : Json
  | num (n : Int) : Json
  | str (s : String) : Json
  | arr (items : List Json) : Json
  | obj (fields : List (String × Json)) : Json

mutual

/-- Embeds `remove_class_fields` from `server.py`: recursively drop every
dict entry whose key is `"__CLASS__"`, recurse into dict values and list
items, return every other value unchanged. -/
def remove_class_fields : Json → Json
  | .obj fields => .obj (stripFields fields)
  | .arr items => .arr (stripItems items)
  | .null => .null
  | .bool b => .bool b
  | .num n => .num n
  | .str s => .str s

/-- The dict comprehension of `remove_class_fields`: filter out the
`"__CLASS__"` key, recurse into the remaining values, keep order. -/
def stripFields : List (String × Json) → List (String × Json)
  | [] => []
  | (k, v) :: rest =>
      if k = "__CLASS__" then stripFields rest
      else (k, remove_class_fields v) :: stripFields rest

/-- The list comprehension of `remove_class_fields`. -/
def stripItems : List Json → List Json
  | [] => []
  | j :: rest => remove_class_fields j :: stripItems rest

end

mutual

/-- True iff some object entry anywhere in the value has key `"__CLASS__"`. -/
def hasClassKey : Json → Bool
  | .obj fields => fieldsHaveClassKey fields
  | .arr items => itemsHaveClassKey items
  | _ => false

def fieldsHaveClassKey : List (String × Json) → Bool
  | [] => false
  | (k, v) :: rest => k == "__CLASS__" || hasClassKey v || fieldsHaveClassKey rest

def itemsHaveClassKey : List Json → Bool
  | [] => false
  | j :: rest => hasClassKey j || itemsHaveClassKey rest

end

/-- Modelled from the spec's words for the Response Normalizer: "Recursively
strip any object key exactly equal to a fixed internal marker name
(`__CLASS__`) from the entire structure — this applies uniformly to objects
and arrays at every nesting depth, values unchanged otherwise." Written
independently of the source, with `filterMap` doing the per-object entry
deletion. -/
def strip_marker_spec : Json → Json
  | .null => .null
  | .bool b => .bool b
  | .num n => .num n
  | .str s => .str s
  | .arr items => .arr (items.attach.map fun x => strip_marker_spec x.1)
  | .obj fields => .obj (fields.attach.filterMap fun kv =>
      if kv.1.1 = "__CLASS__" then none else some (kv.1.1, strip_marker_spec kv.1.2))
termination_by j => sizeOf j
decreasing_by
  · have h := List.sizeOf_lt_of_mem x.2
    simp only [Json.arr.sizeOf_spec]
    omega
  · have h := List.sizeOf_lt_of_mem kv.2
    obtain ⟨⟨k, v⟩, hm⟩ := kv
    simp only [Json.obj.sizeOf_spec, Prod.mk.sizeOf_spec] at *
    omega

theorem attach_filterMap_marker (fields : List (String × Json)) :
    (fields.attach.filterMap fun kv =>
        if kv.1.1 = "__CLASS__" then none else some (kv.1.1, strip_marker_spec kv.1.2)) =
      fields.filterMap fun kv =>
        if kv.1 = "__CLASS__" then none else some (kv.1, strip_marker_spec kv.2) := by
  induction fields with
  | nil => rfl
  | cons kv rest ih =>
      simp only [List.attach_cons, List.filterMap_cons, List.filterMap_map]
      by_cases hk : kv.1 = "__CLASS__" <;> simp [hk, ← ih] <;> rfl

mutual

theorem strip_eq_spec : ∀ j, remove_class_fields j = strip_marker_spec j
  | .null => by simp [remove_class_fields, strip_marker_spec]
  | .bool _ => by simp [remove_class_fields, strip_marker_spec]
  | .num _ => by simp [remove_class_fields, strip_marker_spec]
  | .str _ => by simp [remove_class_fields, strip_marker_spec]
  | .arr items => by
      simp [remove_class_fields, strip_marker_spec, stripItems_eq_spec items]
  | .obj fields => by
      simp only [remove_class_fields, strip_marker_spec, attach_filterMap_marker,
        stripFields_eq_spec fields]

theorem stripFields_eq_spec : ∀ fields, stripFields fields =
    fields.filterMap fun kv =>
      if kv.1 = "__CLASS__" then none else some (kv.1, strip_marker_spec kv.2)
  | [] => rfl
  | (k, v) :: rest => by
      by_cases hk : k = "__CLASS__" <;>
        simp [stripFields, hk, stripFields_eq_spec rest, strip_eq_spec v]

theorem stripItems_eq_spec : ∀ items, stripItems items = items.map strip_marker_spec
  | [] => rfl
  | j :: rest => by
      simp [stripItems, strip_eq_spec j, stripItems_eq_spec rest]

end

mutual

theorem hasClassKey_strip : ∀ j, hasClassKey (remove_class_fields j) = false
  | .null => rfl
  | .bool _ => rfl
  | .num _ => rfl
  | .str _ => rfl
  | .arr items => by
      simp only [remove_class_fields, hasClassKey, itemsHaveClassKey_strip items]
  | .obj fields => by
      simp only [remove_class_fields, hasClassKey, fieldsHaveClassKey_strip fields]

theorem fieldsHaveClassKey_strip :
    ∀ fields, fieldsHaveClassKey (stripFields fields) = false
  | [] => rfl
  | (k, v) :: rest => by
      by_cases hk : k = "__CLASS__"
      · simpa [stripFields, hk] using fieldsHaveClassKey_strip rest
      · simp [stripFields, hk, fieldsHaveClassKey, hasClassKey_strip v,
          fieldsHaveClassKey_strip rest]

theorem itemsHaveClassKey_strip :
    ∀ items, itemsHaveClassKey (stripItems items) = false
  | [] => rfl
  | j :: rest => by
      simp [stripItems, itemsHaveClassKey, hasClassKey_strip j,
        itemsHaveClassKey_strip rest]

end

mutual

theorem strip_of_noClassKey : ∀ j, hasClassKey j = false → remove_class_fields j = j
  | .null, _ => rfl
  | .bool _, _ => rfl
  | .num _, _ => rfl
  | .str _, _ => rfl
  | .arr items, h => by
      simp only [hasClassKey] at h
      simp only [remove_class_fields, stripItems_of_noClassKey items h]
  | .obj fields, h => by
      simp only [hasClassKey] at h
      simp only [remove_class_fields, stripFields_of_noClassKey fields h]

theorem stripFields_of_noClassKey :
    ∀ fields, fieldsHaveClassKey fields = false → stripFields fields = fields
  | [], _ => rfl
  | (k, v) :: rest, h => by
      simp only [fieldsHaveClassKey, Bool.or_eq_false_iff, beq_eq_false_iff_ne] at h
      simp [stripFields, h.1.1, strip_of_noClassKey v h.1.2,
        stripFields_of_noClassKey rest h.2]

theorem stripItems_of_noClassKey :
    ∀ items, itemsHaveClassKey items = false → stripItems items = items
  | [], _ => rfl
  | j :: rest, h => by
      simp only [itemsHaveClassKey, Bool.or_eq_false_iff] at h
      simp [stripItems, strip_of_noClassKey j h.1, stripItems_of_noClassKey rest h.2]

end

theorem strip_idempotent (j : Json) :
    remove_class_fields (remove_class_fields j) = remove_class_fields j :=
  strip_of_noClassKey _ (hasClassKey_strip j)

/-! ## The request-translation layer -/

/-- The two Adzuna credentials (`ADZUNA_APP_ID`, `ADZUNA_APP_KEY`), read from
the environment at process start; the empty string models an unset value. -/
structure Credentials where
  app_id : String
  app_key : String

/-- A value stored in the Python `params` dict: the handlers put strings and
ints in it (booleans are translated to the ints `1`/`0` before insertion). -/
inductive PVal where
  | s (v : String)
  | i (v : Int)

/-- Python `str()` as the HTTP client applies it when turning a params-dict
value into the query-string text. -/
def PVal.render : PVal → String
  | .s v => v
  | .i v => toString v

/-- The query string the HTTP client sends: every params-dict entry,
stringified, in insertion order. -/
def serializeParams (ps : List (String × PVal)) : List (String × String) :=
  ps.map fun kv => (kv.1, kv.2.render)

/-- One outbound `requests.get(endpoint, params=params, timeout=10)` call. -/
structure OutboundRequest where
  url : String
  query : List (String × String)
  timeoutSecs : Nat

/-- Outcome of the `requests.get` / `raise_for_status` / `response.json()`
sequence inside a handler's `try` block. All four error constructors are
`requests.exceptions.RequestException` subclasses in the source (the JSON
decode error via `requests.exceptions.InvalidJSONError`), each carrying its
`str(e)` text. -/
inductive HttpOutcome where
  | success (body : Json)
  | httpStatusError (msg : String)
  | connectionError (msg : String)
  | timeoutError (msg : String)
  | jsonDecodeError (msg : String)

/-- The `str(e)` of a failed outbound call, `none` on success. -/
def HttpOutcome.errText : HttpOutcome → Option String
  | .success _ => none
  | .httpStatusError m => some m
  | .connectionError m => some m
  | .timeoutError m => some m
  | .jsonDecodeError m => some m

/-- What a route hands back to FastAPI: a JSON body, an `HTTPException`
(status code plus `detail` text), a 422 validation rejection issued by
FastAPI's parameter layer before the handler body runs, or an exception
escaping the handler uncaught (FastAPI then serves a bare 500). -/
inductive HandlerResult where
  | success (body : Json)
  | failure (status : Nat) (detail : String)
  | validationError
  | uncaughtError

/-- The `detail` of the credential gate in `search_jobs`. -/
def credsMsgSearch : String :=
  "Adzuna API credentials not configured. Please set ADZUNA_APP_ID and ADZUNA_APP_KEY."

/-- The `detail` of the credential gate in every other upstream-facing handler. -/
def credsMsg : String := "Adzuna API credentials not configured."

/-- Fixed prefix of every upstream-failure `detail`. -/
def apiErrPrefix : String := "Error calling Adzuna API: "

/-- Embeds `if v: params[key] = v` for an `Optional[str]` parameter: Python
truthiness omits both `None` and the empty string. -/
def strParam (key : String) : Option String → List (String × PVal)
  | some v => if v = "" then [] else [(key, .s v)]
  | none => []

/-- Embeds `if v is not None: params[key] = v` for an `Optional[int]` parameter:
only `None` is omitted, `0` is kept. -/
def intParam (key : String) : Option Int → List (String × PVal)
  | some v => [(key, .i v)]
  | none => []

/-- Embeds `if v is not None: params[key] = 1 if v else 0` for an `Optional[bool]`
parameter. -/
def boolParam (key : String) : Option Bool → List (String × PVal)
  | some v => [(key, .i (if v then 1 else 0))]
  | none => []

/-- The optional/defaulted query parameters of `/jobs/search`, in signature
order; `what` (required) is passed separately. -/
structure SearchOpts where
  «where» : Option String
  country : String
  page : Int
  results_per_page : Int
  sort_by : Option String
  full_time : Option Bool
  part_time : Option Bool
  contract : Option Bool
  permanent : Option Bool
  what_and : Option String
  what_phrase : Option String
  what_or : Option String
  what_exclude : Option String
  title_only : Option String
  distance : Option Int
  location0 : Option String
  location1 : Option String
  location2 : Option String
  location3 : Option String
  location4 : Option String
  location5 : Option String
  location6 : Option String
  location7 : Option String
  max_days_old : Option Int
  category : Option String
  sort_dir : Option String
  salary_include_unknown : Option Bool
  company : Option String

/-- Every optional search parameter left unsupplied, with the declared
defaults `country="sg"`, `page=1`, `results_per_page=10`. -/
def defaultSearchOpts : SearchOpts :=
  ⟨none, "sg", 1, 10, none, none, none, none, none, none, none, none, none,
    none, none, none, none, none, none, none, none, none, none, none, none,
    none, none, none⟩

/-- The `params` dict of `search_jobs`, entry for entry in the source's
insertion order. Python dict keys are unique and all keys here are distinct,
so the dict and this association list agree. -/
def buildSearchParams (c : Credentials) (what : String) (o : SearchOpts) :
    List (String × PVal) :=
  [("app_id", .s c.app_id), ("app_key", .s c.app_key),
   ("results_per_page", .i o.results_per_page), ("what", .s what),
   ("content-type", .s "application/json")]
  ++ strParam "where" o.«where»
  ++ strParam "sort_by" o.sort_by
  ++ boolParam "full_time" o.full_time
  ++ boolParam "part_time" o.part_time
  ++ boolParam "contract" o.contract
  ++ boolParam "permanent" o.permanent
  ++ strParam "what_and" o.what_and
  ++ strParam "what_phrase" o.what_phrase
  ++ strParam "what_or" o.what_or
  ++ strParam "what_exclude" o.what_exclude
  ++ strParam "title_only" o.title_only
  ++ intParam "distance" o.distance
  ++ strParam "location0" o.location0
  ++ strParam "location1" o.location1
  ++ strParam "location2" o.location2
  ++ strParam "location3" o.location3
  ++ strParam "location4" o.location4
  ++ strParam "location5" o.location5
  ++ strParam "location6" o.location6
  ++ strParam "location7" o.location7
  ++ intParam "max_days_old" o.max_days_old
  ++ strParam "category" o.category
  ++ strParam "sort_dir" o.sort_dir
  ++ boolParam "salary_include_unknown" o.salary_include_unknown
  ++ strParam "company" o.company

/-- The serialized outbound query of a search call. -/
def searchQuery (c : Credentials) (what : String) (o : SearchOpts) :
    List (String × String) :=
  serializeParams (buildSearchParams c what o)

/-- The search endpoint URL built from the country path segment and page. -/
def searchUrl (country : String) (page : Int) : String :=
  "https://api.adzuna.com/v1/api/jobs/" ++ country ++ "/search/" ++ toString page

/-- Removal of the two salary keys from a result dict's entries (the keys of
a parsed dict are unique, so dropping every matching entry is `dict.pop`). -/
def salaryFilter (fl : List (String × Json)) : List (String × Json) :=
  fl.filter fun kv => kv.1 != "salary_min" && kv.1 != "salary_max"

/-- Embeds `job.pop('salary_min', None); job.pop('salary_max', None)`: removes the
two salary keys from a result dict; a non-dict element has no dict `.pop`,
so the Python loop raises on it (modelled as `none`). -/
def stripSalary : Json → Option Json
  | .obj fields => some (.obj (salaryFilter fields))
  | _ => none

/-- The `for job in results:` salary-popping loop over the whole list. -/
def stripSalaryAll : List Json → Option (List Json)
  | [] => some []
  | j :: rest =>
      match stripSalary j, stripSalaryAll rest with
      | some j', some rest' => some (j' :: rest')
      | _, _ => none

/-- The success path of `search_jobs` after `response.json()`: clean with
`remove_class_fields`, default `results` to `[]` and `count` to `0`, pop the
salary fields from every result, and shape the `JobSearchResponse`
(serialized by FastAPI as `{"count": ..., "results": [...]}`). A body that
is not a dict, a `results` value that is not a list, a non-dict result
element, or a non-int `count` makes the Python code raise outside the
`except RequestException` clause. -/
def searchNormalize (body : Json) : HandlerResult :=
  match remove_class_fields body with
  | .obj fields =>
      match (fields.lookup "results").getD (.arr []) with
      | .arr items =>
          match stripSalaryAll items with
          | some stripped =>
              match (fields.lookup "count").getD (.num 0) with
              | .num n => .success (.obj [("count", .num n), ("results", .arr stripped)])
              | _ => .uncaughtError
          | none => .uncaughtError
      | _ => .uncaughtError
  | _ => .uncaughtError

/-- Embeds the body of `search_jobs`: credential gate, params build, one
outbound GET with timeout 10, error normalization, response shaping. The
second component lists the outbound requests the handler issued. -/
def search_jobs (c : Credentials) (what : String) (o : SearchOpts)
    (outcome : HttpOutcome) : HandlerResult × List OutboundRequest :=
  if c.app_id = "" ∨ c.app_key = "" then
    (.failure 500 credsMsgSearch, [])
  else
    let req : OutboundRequest := ⟨searchUrl o.country o.page, searchQuery c what o, 10⟩
    match outcome with
    | .success body => (searchNormalize body, [req])
    | .httpStatusError m => (.failure 500 (apiErrPrefix ++ m), [req])
    | .connectionError m => (.failure 500 (apiErrPrefix ++ m), [req])
    | .timeoutError m => (.failure 500 (apiErrPrefix ++ m), [req])
    | .jsonDecodeError m => (.failure 500 (apiErrPrefix ++ m), [req])

/-- FastAPI's parameter layer for `/jobs/search`: `what` is declared
required (`Query(...)`), so an absent `what` is rejected with a 422
validation error before the handler body runs; `page` carries `ge=1` and
`results_per_page` carries `ge=1, le=50`. A supplied `what` passes through
unconstrained — the empty string included. -/
def search_route (c : Credentials) (what : Option String) (o : SearchOpts)
    (outcome : HttpOutcome) : HandlerResult × List OutboundRequest :=
  match what with
  | none => (.validationError, [])
  | some w =>
      if o.page < 1 ∨ o.results_per_page < 1 ∨ 50 < o.results_per_page then
        (.validationError, [])
      else search_jobs c w o outcome

/-- The shared `try/except` tail of the six non-search handlers: a success
body is cleaned with `remove_class_fields` and returned; every
`RequestException` becomes a 500 whose `detail` prefixes the error text. -/
def passthroughOutcome (outcome : HttpOutcome) (req : OutboundRequest) :
    HandlerResult × List OutboundRequest :=
  match outcome with
  | .success body => (.success (remove_class_fields body), [req])
  | .httpStatusError m => (.failure 500 (apiErrPrefix ++ m), [req])
  | .connectionError m => (.failure 500 (apiErrPrefix ++ m), [req])
  | .timeoutError m => (.failure 500 (apiErrPrefix ++ m), [req])
  | .jsonDecodeError m => (.failure 500 (apiErrPrefix ++ m), [req])

/-- Embeds `get_categories`. -/
def get_categories (c : Credentials) (country : String) (outcome : HttpOutcome) :
    HandlerResult × List OutboundRequest :=
  if c.app_id = "" ∨ c.app_key = "" then
    (.failure 500 credsMsg, [])
  else
    passthroughOutcome outcome
      ⟨"https://api.adzuna.com/v1/api/jobs/" ++ country ++ "/categories",
        serializeParams [("app_id", .s c.app_id), ("app_key", .s c.app_key)], 10⟩

/-- Optional parameters shared by `get_top_companies` and
`get_salary_histogram`, in signature order. -/
structure CompanyStatsOpts where
  what : Option String
  location0 : Option String
  location1 : Option String
  location2 : Option String
  location3 : Option String
  location4 : Option String
  location5 : Option String
  location6 : Option String
  location7 : Option String
  category : Option String

/-- The `params` dict shared by `get_top_companies` and
`get_salary_histogram`, in insertion order. -/
def buildCompanyStatsParams (c : Credentials) (o : CompanyStatsOpts) :
    List (String × PVal) :=
  [("app_id", .s c.app_id), ("app_key", .s c.app_key)]
  ++ strParam "what" o.what
  ++ strParam "location0" o.location0
  ++ strParam "location1" o.location1
  ++ strParam "location2" o.location2
  ++ strParam "location3" o.location3
  ++ strParam "location4" o.location4
  ++ strParam "location5" o.location5
  ++ strParam "location6" o.location6
  ++ strParam "location7" o.location7
  ++ strParam "category" o.category

/-- Embeds `get_top_companies`. -/
def get_top_companies (c : Credentials) (country : String) (o : CompanyStatsOpts)
    (outcome : HttpOutcome) : HandlerResult × List OutboundRequest :=
  if c.app_id = "" ∨ c.app_key = "" then
    (.failure 500 credsMsg, [])
  else
    passthroughOutcome outcome
      ⟨"https://api.adzuna.com/v1/api/jobs/" ++ country ++ "/top_companies",
        serializeParams (buildCompanyStatsParams c o), 10⟩

/-- Embeds `get_salary_histogram`. -/
def get_salary_histogram (c : Credentials) (country : String) (o : CompanyStatsOpts)
    (outcome : HttpOutcome) : HandlerResult × List OutboundRequest :=
  if c.app_id = "" ∨ c.app_key = "" then
    (.failure 500 credsMsg, [])
  else
    passthroughOutcome outcome
      ⟨"https://api.adzuna.com/v1/api/jobs/" ++ country ++ "/histogram",
        serializeParams (buildCompanyStatsParams c o), 10⟩

/-- Optional parameters of `get_geodata` (no `what`), in signature order. -/
structure GeodataOpts where
  location0 : Option String
  location1 : Option String
  location2 : Option String
  location3 : Option String
  location4 : Option String
  location5 : Option String
  location6 : Option String
  location7 : Option String
  category : Option String

/-- The `params` dict of `get_geodata`, in insertion order. -/
def buildGeodataParams (c : Credentials) (o : GeodataOpts) : List (String × PVal) :=
  [("app_id", .s c.app_id), ("app_key", .s c.app_key)]
  ++ strParam "location0" o.location0
  ++ strParam "location1" o.location1
  ++ strParam "location2" o.location2
  ++ strParam "location3" o.location3
  ++ strParam "location4" o.location4
  ++ strParam "location5" o.location5
  ++ strParam "location6" o.location6
  ++ strParam "location7" o.location7
  ++ strParam "category" o.category

/-- Embeds `get_geodata`. -/
def get_geodata (c : Credentials) (country : String) (o : GeodataOpts)
    (outcome : HttpOutcome) : HandlerResult × List OutboundRequest :=
  if c.app_id = "" ∨ c.app_key = "" then
    (.failure 500 credsMsg, [])
  else
    passthroughOutcome outcome
      ⟨"https://api.adzuna.com/v1/api/jobs/" ++ country ++ "/geodata",
        serializeParams (buildGeodataParams c o), 10⟩

/-- Optional parameters of `get_salary_history`, in signature order. -/
structure HistoryOpts where
  location0 : Option String
  location1 : Option String
  location2 : Option String
  location3 : Option String
  location4 : Option String
  location5 : Option String
  location6 : Option String
  location7 : Option String
  category : Option String
  months : Option Int

/-- The `params` dict of `get_salary_history`, in insertion order; `months`
is tested against `None`, so `0` is kept. -/
def buildHistoryParams (c : Credentials) (o : HistoryOpts) : List (String × PVal) :=
  [("app_id", .s c.app_id), ("app_key", .s c.app_key)]
  ++ strParam "location0" o.location0
  ++ strParam "location1" o.location1
  ++ strParam "location2" o.location2
  ++ strParam "location3" o.location3
  ++ strParam "location4" o.location4
  ++ strParam "location5" o.location5
  ++ strParam "location6" o.location6
  ++ strParam "location7" o.location7
  ++ strParam "category" o.category
  ++ intParam "months" o.months

/-- Embeds `get_salary_history`. -/
def get_salary_history (c : Credentials) (country : String) (o : HistoryOpts)
    (outcome : HttpOutcome) : HandlerResult × List OutboundRequest :=
  if c.app_id = "" ∨ c.app_key = "" then
    (.failure 500 credsMsg, [])
  else
    passthroughOutcome outcome
      ⟨"https://api.adzuna.com/v1/api/jobs/" ++ country ++ "/history",
        serializeParams (buildHistoryParams c o), 10⟩

/-- Embeds `get_api_version`. -/
def get_api_version (c : Credentials) (outcome : HttpOutcome) :
    HandlerResult × List OutboundRequest :=
  if c.app_id = "" ∨ c.app_key = "" then
    (.failure 500 credsMsg, [])
  else
    passthroughOutcome outcome
      ⟨"https://api.adzuna.com/v1/api/version",
        serializeParams [("app_id", .s c.app_id), ("app_key", .s c.app_key)], 10⟩

/-! ## Helper lemmas on query construction and normalization -/

theorem serializeParams_append (l1 l2 : List (String × PVal)) :
    serializeParams (l1 ++ l2) = serializeParams l1 ++ serializeParams l2 := by
  simp [serializeParams]

theorem lookup_ser_strParam_ne {k key : String} (h : k ≠ key) (v : Option String) :
    (serializeParams (strParam key v)).lookup k = none := by
  cases v with
  | none => rfl
  | some s =>
      by_cases hs : s = "" <;>
        simp [strParam, hs, serializeParams, List.lookup, beq_false_of_ne h]

theorem lookup_ser_intParam_ne {k key : String} (h : k ≠ key) (v : Option Int) :
    (serializeParams (intParam key v)).lookup k = none := by
  cases v with
  | none => rfl
  | some n => simp [intParam, serializeParams, List.lookup, beq_false_of_ne h]

theorem lookup_ser_boolParam_ne {k key : String} (h : k ≠ key) (v : Option Bool) :
    (serializeParams (boolParam key v)).lookup k = none := by
  cases v with
  | none => rfl
  | some b => simp [boolParam, serializeParams, List.lookup, beq_false_of_ne h]

theorem lookup_ser_boolParam_true (key : String) :
    (serializeParams (boolParam key (some true))).lookup key = some "1" := by
  simp [boolParam, serializeParams, PVal.render, List.lookup]
  rfl

theorem lookup_ser_boolParam_false (key : String) :
    (serializeParams (boolParam key (some false))).lookup key = some "0" := by
  simp [boolParam, serializeParams, PVal.render, List.lookup]
  rfl

theorem lookup_ser_intParam_zero (key : String) :
    (serializeParams (intParam key (some 0))).lookup key = some "0" := by
  simp [intParam, serializeParams, PVal.render, List.lookup]
  rfl

theorem lookup_ser_strParam_none {k key : String} :
    (serializeParams (strParam key none)).lookup k = none := rfl

theorem lookup_ser_intParam_none {k key : String} :
    (serializeParams (intParam key none)).lookup k = none := rfl

theorem lookup_ser_boolParam_none {k key : String} :
    (serializeParams (boolParam key none)).lookup k = none := rfl

theorem lookup_ser_cons_ne {k key : String} (h : ¬ k = key) (v : PVal)
    (rest : List (String × PVal)) :
    (serializeParams ((key, v) :: rest)).lookup k = (serializeParams rest).lookup k := by
  simp [serializeParams, List.lookup, beq_false_of_ne h]

theorem lookup_ser_cons_eq (key : String) (v : PVal) (rest : List (String × PVal)) :
    (serializeParams ((key, v) :: rest)).lookup key = some v.render := by
  simp [serializeParams, List.lookup]

theorem lookup_ser_nil {k : String} :
    (serializeParams ([] : List (String × PVal))).lookup k = none := rfl

theorem lookup_salaryFilter_min (fl : List (String × Json)) :
    (salaryFilter fl).lookup "salary_min" = none := by
  induction fl with
  | nil => rfl
  | cons kv rest ih =>
      by_cases h1 : kv.1 = "salary_min"
      · simpa [salaryFilter, List.filter_cons, h1] using ih
      · by_cases h2 : kv.1 = "salary_max"
        · simpa [salaryFilter, List.filter_cons, h2] using ih
        · simpa [salaryFilter, List.filter_cons, h1, h2, List.lookup,
            beq_false_of_ne (Ne.symm h1)] using ih

theorem lookup_salaryFilter_max (fl : List (String × Json)) :
    (salaryFilter fl).lookup "salary_max" = none := by
  induction fl with
  | nil => rfl
  | cons kv rest ih =>
      by_cases h1 : kv.1 = "salary_min"
      · simpa [salaryFilter, List.filter_cons, h1] using ih
      · by_cases h2 : kv.1 = "salary_max"
        · simpa [salaryFilter, List.filter_cons, h2] using ih
        · simpa [salaryFilter, List.filter_cons, h1, h2, List.lookup,
            beq_false_of_ne (Ne.symm h2)] using ih

theorem stripSalary_shape {j j' : Json} (h : stripSalary j = some j') :
    ∃ fl, j' = .obj (salaryFilter fl) := by
  cases j <;> simp [stripSalary] at h
  exact ⟨_, h.symm⟩

theorem stripSalaryAll_mem :
    ∀ {items jobs : List Json}, stripSalaryAll items = some jobs →
      ∀ job ∈ jobs, ∃ fl, job = .obj (salaryFilter fl) := by
  intro items
  induction items with
  | nil =>
      intro jobs h job hj
      simp [stripSalaryAll] at h
      subst h
      simp at hj
  | cons j rest ih =>
      intro jobs h job hj
      cases hsj : stripSalary j with
      | none => simp [stripSalaryAll, hsj] at h
      | some j' =>
          cases hrest : stripSalaryAll rest with
          | none => simp [stripSalaryAll, hsj, hrest] at h
          | some rest' =>
              simp only [stripSalaryAll, hsj, hrest, Option.some.injEq] at h
              subst h
              rcases List.mem_cons.mp hj with hj1 | hj2
              · subst hj1; exact stripSalary_shape hsj
              · exact ih hrest job hj2

theorem searchNormalize_success {body out : Json}
    (h : searchNormalize body = .success out) :
    ∃ fields items stripped n, remove_class_fields body = .obj fields ∧
      (fields.lookup "results").getD (.arr []) = .arr items ∧
      stripSalaryAll items = some stripped ∧
      (fields.lookup "count").getD (.num 0) = .num n ∧
      out = .obj [("count", .num n), ("results", .arr stripped)] := by
  unfold searchNormalize at h
  split at h
  · split at h
    · split at h
      · split at h
        · exact ⟨_, _, _, _, by assumption, by assumption, by assumption,
            by assumption, (HandlerResult.success.inj h).symm⟩
        · exact absurd h (by simp)
      · exact absurd h (by simp)
    · exact absurd h (by simp)
  · exact absurd h (by simp)

theorem lookup_stripFields {k : String} (hk : k ≠ "__CLASS__")
    (fl : List (String × Json)) :
    (stripFields fl).lookup k = (fl.lookup k).map remove_class_fields := by
  induction fl with
  | nil => rfl
  | cons kv rest ih =>
      obtain ⟨k', v⟩ := kv
      by_cases h' : k' = "__CLASS__"
      · subst h'
        simp [stripFields, List.lookup, beq_false_of_ne hk, ih]
      · by_cases h2 : k = k'
        · subst h2
          simp [stripFields, h', List.lookup]
        · simp [stripFields, h', List.lookup, beq_false_of_ne h2, ih]

/-- Python `str()` on a `bool`. -/
def pyStrBool : Bool → String
  | true => "True"
  | false => "False"

/-- Embeds `health_check`: no upstream call; reports
`str(bool(ADZUNA_APP_ID and ADZUNA_APP_KEY))`. -/
def health_check (c : Credentials) :
    (List (String × String)) × List OutboundRequest :=
  ([("status", "healthy"),
    ("credentials_configured", pyStrBool (!(c.app_id == "") && !(c.app_key == "")))],
   [])

/-! ## Claim theorems -/

/-- C2: for every JSON value `v`, `remove_class_fields v` equals the value
obtained from `v` by deleting every object entry whose key is exactly
`"__CLASS__"` at every nesting depth (inside objects and arrays alike),
leaving all other keys and values unchanged — rendered by the independent
spec-side definition `strip_marker_spec`; in particular a value with no
`"__CLASS__"` key anywhere is returned unchanged. Totality on finite JSON
values holds by construction: `remove_class_fields` is a total Lean
function. -/
theorem remove_class_fields_matches_spec (v : Json) :
    remove_class_fields v = strip_marker_spec v ∧
      (hasClassKey v = false → remove_class_fields v = v) :=
  ⟨strip_eq_spec v, strip_of_noClassKey v⟩

/-- Witness for C2 at a concrete nested value. -/
theorem remove_class_fields_matches_spec_witness :
    remove_class_fields (.obj [("a", .num 1), ("b", .arr [.str "x"])]) =
      .obj [("a", .num 1), ("b", .arr [.str "x"])] :=
  (remove_class_fields_matches_spec (.obj [("a", .num 1), ("b", .arr [.str "x"])])).2
    (by simp [hasClassKey, fieldsHaveClassKey, itemsHaveClassKey])

/-- C7: normalization is idempotent — stripping twice equals stripping
once — and equivalently the output of `remove_class_fields` contains no
`"__CLASS__"` object key at any depth. -/
theorem remove_class_fields_idempotent (v : Json) :
    remove_class_fields (remove_class_fields v) = remove_class_fields v ∧
      hasClassKey (remove_class_fields v) = false :=
  ⟨strip_idempotent v, hasClassKey_strip v⟩

/-- C8: the health operation issues no upstream call and, in every
credential state, returns `{"status": "healthy", "credentials_configured": s}`
where `s` is the literal string `"True"` when both credentials are non-empty
and the literal string `"False"` otherwise. -/
theorem health_check_reports_literal_bool_string (c : Credentials) :
    health_check c =
      ([("status", "healthy"),
        ("credentials_configured",
          if c.app_id ≠ "" ∧ c.app_key ≠ "" then "True" else "False")], []) := by
  unfold health_check
  cases h1 : c.app_id == "" <;> cases h2 : c.app_key == "" <;>
    simp only [beq_iff_eq, beq_eq_false_iff_ne] at h1 h2 <;>
    simp [pyStrBool, h1, h2]

/-- All optional parameters of top-companies/histogram unsupplied. -/
def defaultCompanyStatsOpts : CompanyStatsOpts :=
  ⟨none, none, none, none, none, none, none, none, none, none⟩

/-- All optional parameters of geodata unsupplied. -/
def defaultGeodataOpts : GeodataOpts :=
  ⟨none, none, none, none, none, none, none, none, none⟩

/-- All optional parameters of salary-history unsupplied. -/
def defaultHistoryOpts : HistoryOpts :=
  ⟨none, none, none, none, none, none, none, none, none, none⟩

/-- A configured credential pair, for witnesses. -/
def testCreds : Credentials := ⟨"test-id", "test-key"⟩

/-- C1: every upstream-facing operation, when either stored credential is
the empty string, returns a 500 failure with the credentials-not-configured
message and issues no outbound request (the request list is empty). -/
theorem creds_empty_shortcircuit (c : Credentials)
    (h : c.app_id = "" ∨ c.app_key = "")
    (what : String) (o : SearchOpts) (country : String)
    (oc : CompanyStatsOpts) (og : GeodataOpts) (oh : HistoryOpts)
    (outcome : HttpOutcome) :
    search_jobs c what o outcome = (.failure 500 credsMsgSearch, []) ∧
    get_categories c country outcome = (.failure 500 credsMsg, []) ∧
    get_top_companies c country oc outcome = (.failure 500 credsMsg, []) ∧
    get_salary_histogram c country oc outcome = (.failure 500 credsMsg, []) ∧
    get_geodata c country og outcome = (.failure 500 credsMsg, []) ∧
    get_salary_history c country oh outcome = (.failure 500 credsMsg, []) ∧
    get_api_version c outcome = (.failure 500 credsMsg, []) := by
  refine ⟨?_, ?_, ?_, ?_, ?_, ?_, ?_⟩ <;>
    simp [search_jobs, get_categories, get_top_companies, get_salary_histogram,
      get_geodata, get_salary_history, get_api_version, h]

/-- Witness for C1: empty app id, all operations short-circuit. -/
theorem creds_empty_shortcircuit_witness :
    search_jobs ⟨"", "some-key"⟩ "x" defaultSearchOpts (.success (.obj [])) =
        (.failure 500 credsMsgSearch, []) ∧
    get_categories ⟨"", "some-key"⟩ "sg" (.success (.obj [])) =
        (.failure 500 credsMsg, []) ∧
    get_top_companies ⟨"", "some-key"⟩ "sg" defaultCompanyStatsOpts (.success (.obj [])) =
        (.failure 500 credsMsg, []) ∧
    get_salary_histogram ⟨"", "some-key"⟩ "sg" defaultCompanyStatsOpts (.success (.obj [])) =
        (.failure 500 credsMsg, []) ∧
    get_geodata ⟨"", "some-key"⟩ "sg" defaultGeodataOpts (.success (.obj [])) =
        (.failure 500 credsMsg, []) ∧
    get_salary_history ⟨"", "some-key"⟩ "sg" defaultHistoryOpts (.success (.obj [])) =
        (.failure 500 credsMsg, []) ∧
    get_api_version ⟨"", "some-key"⟩ (.success (.obj [])) =
        (.failure 500 credsMsg, []) :=
  creds_empty_shortcircuit ⟨"", "some-key"⟩ (Or.inl rfl) "x" defaultSearchOpts
    "sg" defaultCompanyStatsOpts defaultGeodataOpts defaultHistoryOpts
    (.success (.obj []))

/-- C4: for every operation and every failure mode of the single outbound
call — non-2xx status, connection error, timeout, or a 2xx body that is not
valid JSON — the operation returns `Failure 500` with detail
`"Error calling Adzuna API: "` followed by the underlying error text, and
exactly one outbound request was issued (no retry), with no partial
result. -/
theorem upstream_failure_uniform_500 (c : Credentials)
    (hid : c.app_id ≠ "") (hkey : c.app_key ≠ "")
    (what : String) (o : SearchOpts) (country : String)
    (oc : CompanyStatsOpts) (og : GeodataOpts) (oh : HistoryOpts)
    (outcome : HttpOutcome) (m : String) (hm : outcome.errText = some m) :
    ((search_jobs c what o outcome).1 = .failure 500 (apiErrPrefix ++ m) ∧
      (search_jobs c what o outcome).2.length = 1) ∧
    ((get_categories c country outcome).1 = .failure 500 (apiErrPrefix ++ m) ∧
      (get_categories c country outcome).2.length = 1) ∧
    ((get_top_companies c country oc outcome).1 = .failure 500 (apiErrPrefix ++ m) ∧
      (get_top_companies c country oc outcome).2.length = 1) ∧
    ((get_salary_histogram c country oc outcome).1 = .failure 500 (apiErrPrefix ++ m) ∧
      (get_salary_histogram c country oc outcome).2.length = 1) ∧
    ((get_geodata c country og outcome).1 = .failure 500 (apiErrPrefix ++ m) ∧
      (get_geodata c country og outcome).2.length = 1) ∧
    ((get_salary_history c country oh outcome).1 = .failure 500 (apiErrPrefix ++ m) ∧
      (get_salary_history c country oh outcome).2.length = 1) ∧
    ((get_api_version c outcome).1 = .failure 500 (apiErrPrefix ++ m) ∧
      (get_api_version c outcome).2.length = 1) := by
  have hc : ¬(c.app_id = "" ∨ c.app_key = "") := not_or.mpr ⟨hid, hkey⟩
  cases outcome <;>
    simp only [HttpOutcome.errText, Option.some.injEq, reduceCtorEq] at hm <;>
    subst hm <;>
    refine ⟨⟨?_, ?_⟩, ⟨?_, ?_⟩, ⟨?_, ?_⟩, ⟨?_, ?_⟩, ⟨?_, ?_⟩, ⟨?_, ?_⟩, ⟨?_, ?_⟩⟩ <;>
    simp [search_jobs, get_categories, get_top_companies, get_salary_histogram,
      get_geodata, get_salary_history, get_api_version, passthroughOutcome, hc]

/-- Witness for C4 at a concrete connection error. -/
theorem upstream_failure_uniform_500_witness :
    ((search_jobs testCreds "x" defaultSearchOpts (.connectionError "boom")).1 =
        .failure 500 (apiErrPrefix ++ "boom") ∧
      (search_jobs testCreds "x" defaultSearchOpts (.connectionError "boom")).2.length = 1) ∧
    ((get_categories testCreds "sg" (.connectionError "boom")).1 =
        .failure 500 (apiErrPrefix ++ "boom") ∧
      (get_categories testCreds "sg" (.connectionError "boom")).2.length = 1) ∧
    ((get_top_companies testCreds "sg" defaultCompanyStatsOpts (.connectionError "boom")).1 =
        .failure 500 (apiErrPrefix ++ "boom") ∧
      (get_top_companies testCreds "sg" defaultCompanyStatsOpts (.connectionError "boom")).2.length = 1) ∧
    ((get_salary_histogram testCreds "sg" defaultCompanyStatsOpts (.connectionError "boom")).1 =
        .failure 500 (apiErrPrefix ++ "boom") ∧
      (get_salary_histogram testCreds "sg" defaultCompanyStatsOpts (.connectionError "boom")).2.length = 1) ∧
    ((get_geodata testCreds "sg" defaultGeodataOpts (.connectionError "boom")).1 =
        .failure 500 (apiErrPrefix ++ "boom") ∧
      (get_geodata testCreds "sg" defaultGeodataOpts (.connectionError "boom")).2.length = 1) ∧
    ((get_salary_history testCreds "sg" defaultHistoryOpts (.connectionError "boom")).1 =
        .failure 500 (apiErrPrefix ++ "boom") ∧
      (get_salary_history testCreds "sg" defaultHistoryOpts (.connectionError "boom")).2.length = 1) ∧
    ((get_api_version testCreds (.connectionError "boom")).1 =
        .failure 500 (apiErrPrefix ++ "boom") ∧
      (get_api_version testCreds (.connectionError "boom")).2.length = 1) :=
  upstream_failure_uniform_500 testCreds (by decide) (by decide) "x"
    defaultSearchOpts "sg" defaultCompanyStatsOpts defaultGeodataOpts
    defaultHistoryOpts (.connectionError "boom") "boom" rfl

/-- The stub upstream body of the spec's concrete search scenario. -/
def scenarioBody : Json :=
  .obj [("count", .num 2),
    ("results", .arr [.obj [("title", .str "Senior Data Scientist"),
      ("salary_min", .num 80000), ("salary_max", .num 120000)]])]

/-- C3: with configured credentials, every element of a successful search
response's result list lacks the keys `"salary_min"` and `"salary_max"`,
whatever the upstream sent; and the spec's concrete scenario (`what="data
scientist"`, `country="sg"`, stub body with the two salary fields)
normalizes to `{"count": 2, "results": [{"title": "Senior Data
Scientist"}]}`. -/
theorem search_salary_fields_removed (c : Credentials)
    (hid : c.app_id ≠ "") (hkey : c.app_key ≠ "") :
    (∀ (what : String) (o : SearchOpts) (body : Json) (n : Int) (jobs : List Json),
      (search_jobs c what o (.success body)).1 =
          .success (.obj [("count", .num n), ("results", .arr jobs)]) →
      ∀ job ∈ jobs, ∃ fl, job = .obj fl ∧
        fl.lookup "salary_min" = none ∧ fl.lookup "salary_max" = none) ∧
    (search_jobs c "data scientist" defaultSearchOpts (.success scenarioBody)).1 =
      .success (.obj [("count", .num 2),
        ("results", .arr [.obj [("title", .str "Senior Data Scientist")]])]) := by
  have hc : ¬(c.app_id = "" ∨ c.app_key = "") := not_or.mpr ⟨hid, hkey⟩
  constructor
  · intro what o body n jobs h job hj
    rw [show (search_jobs c what o (.success body)).1 = searchNormalize body by
      simp [search_jobs, hc]] at h
    obtain ⟨fields, items, stripped, n', hcl, hres, hstrip, hcnt, hout⟩ :=
      searchNormalize_success h
    have hjobs : jobs = stripped := by
      have h3 := Json.obj.inj hout
      simp at h3
      exact h3.2
    subst hjobs
    obtain ⟨fl, hfl⟩ := stripSalaryAll_mem hstrip job hj
    exact ⟨salaryFilter fl, hfl, lookup_salaryFilter_min fl, lookup_salaryFilter_max fl⟩
  · simp [search_jobs, hc]
    rfl

/-- Witness for C3 at concrete credentials: the spec's scenario. -/
theorem search_salary_fields_removed_witness :
    (search_jobs testCreds "data scientist" defaultSearchOpts (.success scenarioBody)).1 =
      .success (.obj [("count", .num 2),
        ("results", .arr [.obj [("title", .str "Senior Data Scientist")]])]) :=
  (search_salary_fields_removed testCreds (by decide) (by decide)).2

/-- C5: each boolean search parameter (`full_time`, `part_time`, `contract`,
`permanent`, `salary_include_unknown`) serializes in the outbound query to
the literal string `"1"` when supplied as true and `"0"` when supplied as
false (never a boolean literal), and the key is absent from the outbound
query entirely when the parameter is unsupplied — so the three states stay
pairwise distinguishable. `searchQuery` is, by definition of `search_jobs`,
the query of the one outbound search request. -/
theorem search_bool_params_tristate (c : Credentials) (what : String) (o : SearchOpts) :
    ((searchQuery c what { o with full_time := some true }).lookup "full_time" = some "1" ∧
      (searchQuery c what { o with full_time := some false }).lookup "full_time" = some "0" ∧
      (searchQuery c what { o with full_time := none }).lookup "full_time" = none) ∧
    ((searchQuery c what { o with part_time := some true }).lookup "part_time" = some "1" ∧
      (searchQuery c what { o with part_time := some false }).lookup "part_time" = some "0" ∧
      (searchQuery c what { o with part_time := none }).lookup "part_time" = none) ∧
    ((searchQuery c what { o with contract := some true }).lookup "contract" = some "1" ∧
      (searchQuery c what { o with contract := some false }).lookup "contract" = some "0" ∧
      (searchQuery c what { o with contract := none }).lookup "contract" = none) ∧
    ((searchQuery c what { o with permanent := some true }).lookup "permanent" = some "1" ∧
      (searchQuery c what { o with permanent := some false }).lookup "permanent" = some "0" ∧
      (searchQuery c what { o with permanent := none }).lookup "permanent" = none) ∧
    ((searchQuery c what { o with salary_include_unknown := some true }).lookup
        "salary_include_unknown" = some "1" ∧
      (searchQuery c what { o with salary_include_unknown := some false }).lookup
        "salary_include_unknown" = some "0" ∧
      (searchQuery c what { o with salary_include_unknown := none }).lookup
        "salary_include_unknown" = none) := by
  refine ⟨⟨?_, ?_, ?_⟩, ⟨?_, ?_, ?_⟩, ⟨?_, ?_, ?_⟩, ⟨?_, ?_, ?_⟩, ⟨?_, ?_, ?_⟩⟩ <;>
    simp only [searchQuery, buildSearchParams, serializeParams_append,
      List.lookup_append, lookup_ser_strParam_ne, lookup_ser_intParam_ne,
      lookup_ser_boolParam_ne, lookup_ser_boolParam_true,
      lookup_ser_boolParam_false, lookup_ser_boolParam_none,
      lookup_ser_cons_ne, lookup_ser_nil,
      Option.none_or, Option.or_none, ne_eq, String.reduceEq, not_false_eq_true]

/-- C9: supplying the empty string for any optional string-typed search
parameter yields an outbound query identical to not supplying it at all
(the handler tests truthiness), while the integer parameters `distance` and
`max_days_old` (and `months` of the salary-history operation) are tested
against `None` and therefore appear in the outbound query even when
supplied as `0`. -/
theorem search_empty_string_params_omitted (c : Credentials) (what : String)
    (o : SearchOpts) (oh : HistoryOpts) :
    (searchQuery c what { o with «where» := some "" } =
        searchQuery c what { o with «where» := none } ∧
      searchQuery c what { o with sort_by := some "" } =
        searchQuery c what { o with sort_by := none } ∧
      searchQuery c what { o with what_and := some "" } =
        searchQuery c what { o with what_and := none } ∧
      searchQuery c what { o with what_phrase := some "" } =
        searchQuery c what { o with what_phrase := none } ∧
      searchQuery c what { o with what_or := some "" } =
        searchQuery c what { o with what_or := none } ∧
      searchQuery c what { o with what_exclude := some "" } =
        searchQuery c what { o with what_exclude := none } ∧
      searchQuery c what { o with title_only := some "" } =
        searchQuery c what { o with title_only := none } ∧
      searchQuery c what { o with location0 := some "" } =
        searchQuery c what { o with location0 := none } ∧
      searchQuery c what { o with location1 := some "" } =
        searchQuery c what { o with location1 := none } ∧
      searchQuery c what { o with location2 := some "" } =
        searchQuery c what { o with location2 := none } ∧
      searchQuery c what { o with location3 := some "" } =
        searchQuery c what { o with location3 := none } ∧
      searchQuery c what { o with location4 := some "" } =
        searchQuery c what { o with location4 := none } ∧
      searchQuery c what { o with location5 := some "" } =
        searchQuery c what { o with location5 := none } ∧
      searchQuery c what { o with location6 := some "" } =
        searchQuery c what { o with location6 := none } ∧
      searchQuery c what { o with location7 := some "" } =
        searchQuery c what { o with location7 := none } ∧
      searchQuery c what { o with category := some "" } =
        searchQuery c what { o with category := none } ∧
      searchQuery c what { o with sort_dir := some "" } =
        searchQuery c what { o with sort_dir := none } ∧
      searchQuery c what { o with company := some "" } =
        searchQuery c what { o with company := none }) ∧
    ((searchQuery c what { o with distance := some 0 }).lookup "distance" = some "0" ∧
      (searchQuery c what { o with max_days_old := some 0 }).lookup "max_days_old" =
        some "0" ∧
      (serializeParams (buildHistoryParams c { oh with months := some 0 })).lookup
        "months" = some "0") := by
  constructor
  · exact ⟨rfl, rfl, rfl, rfl, rfl, rfl, rfl, rfl, rfl, rfl, rfl, rfl, rfl,
      rfl, rfl, rfl, rfl, rfl⟩
  · refine ⟨?_, ?_, ?_⟩ <;>
      simp only [searchQuery, buildSearchParams, buildHistoryParams,
        serializeParams_append, List.lookup_append, lookup_ser_strParam_ne,
        lookup_ser_intParam_ne, lookup_ser_boolParam_ne, lookup_ser_intParam_zero,
        lookup_ser_strParam_none, lookup_ser_intParam_none, lookup_ser_boolParam_none,
        lookup_ser_cons_ne, lookup_ser_nil, Option.none_or, Option.or_none,
        ne_eq, String.reduceEq, not_false_eq_true]

/-- Counterexample to C6 as stated: with configured credentials, a search
invocation whose `what` is the empty string is NOT rejected before
dispatch — the handler issues the outbound call (request count 1, not 0)
and returns success. -/
theorem search_empty_what_counterexample :
    (search_route testCreds (some "") defaultSearchOpts
        (.success (.obj [("count", .num 0), ("results", .arr [])]))).1 =
      .success (.obj [("count", .num 0), ("results", .arr [])]) ∧
    (search_route testCreds (some "") defaultSearchOpts
        (.success (.obj [("count", .num 0), ("results", .arr [])]))).2.length = 1 :=
  ⟨rfl, rfl⟩

/-- C6 amended: a search invocation with `what` absent is rejected by the
boundary layer's validation (422) before any outbound call (request list
empty); the handler itself does not re-check, so a supplied empty-string
`what` proceeds to the outbound call — exactly one request is issued and
its query carries `what=""`. -/
theorem search_required_param_amended (c : Credentials) (o : SearchOpts)
    (outcome : HttpOutcome) (hid : c.app_id ≠ "") (hkey : c.app_key ≠ "")
    (hpage : 1 ≤ o.page) (hrpp1 : 1 ≤ o.results_per_page)
    (hrpp2 : o.results_per_page ≤ 50) :
    search_route c none o outcome = (.validationError, []) ∧
    search_route c (some "") o outcome = search_jobs c "" o outcome ∧
    (search_jobs c "" o outcome).2.length = 1 ∧
    ∀ req ∈ (search_jobs c "" o outcome).2, req.query.lookup "what" = some "" := by
  have hc : ¬(c.app_id = "" ∨ c.app_key = "") := not_or.mpr ⟨hid, hkey⟩
  have hval : ¬(o.page < 1 ∨ o.results_per_page < 1 ∨ 50 < o.results_per_page) := by
    omega
  refine ⟨rfl, ?_, ?_, ?_⟩
  · simp [search_route, hval]
  · cases outcome <;> simp [search_jobs, hc]
  · intro req hreq
    cases outcome <;> simp [search_jobs, hc] at hreq <;> subst hreq <;>
      simp only [searchQuery, buildSearchParams, serializeParams_append,
        List.lookup_append, lookup_ser_strParam_ne, lookup_ser_intParam_ne,
        lookup_ser_boolParam_ne, lookup_ser_cons_ne, lookup_ser_cons_eq,
        lookup_ser_nil, PVal.render, Option.none_or, Option.or_none,
        Option.or_some, ne_eq, String.reduceEq, not_false_eq_true]

/-- Witness for the amended C6 at concrete inputs. -/
theorem search_required_param_amended_witness :
    search_route testCreds none defaultSearchOpts (.success (.obj [])) =
        (.validationError, []) ∧
    (search_jobs testCreds "" defaultSearchOpts (.success (.obj []))).2.length = 1 :=
  (fun h => ⟨h.1, h.2.2.1⟩)
    (search_required_param_amended testCreds defaultSearchOpts (.success (.obj []))
      (by decide) (by decide) (by decide) (by decide) (by decide))

/-- The success value of `searchNormalize` under explicit hypotheses about
the cleaned body's `results` and `count` lookups. -/
theorem searchNormalize_formula (fl : List (String × Json))
    {items stripped : List Json} {n : Int}
    (hres : ((stripFields fl).lookup "results").getD (.arr []) = .arr items)
    (hstrip : stripSalaryAll items = some stripped)
    (hcnt : ((stripFields fl).lookup "count").getD (.num 0) = .num n) :
    searchNormalize (.obj fl) =
      .success (.obj [("count", .num n), ("results", .arr stripped)]) := by
  unfold searchNormalize
  rw [show remove_class_fields (.obj fl) = .obj (stripFields fl) from rfl]
  dsimp only
  rw [hres]
  dsimp only
  rw [hstrip]
  dsimp only
  rw [hcnt]

/-- C10: if a successful upstream search body (a JSON object) lacks the
`"results"` key or the `"count"` key (or both), `search_jobs` still returns
success, substituting the empty list for `results` and `0` for `count`. -/
theorem search_missing_keys_defaults (c : Credentials)
    (hid : c.app_id ≠ "") (hkey : c.app_key ≠ "")
    (what : String) (o : SearchOpts) (fields : List (String × Json)) :
    (fields.lookup "results" = none → fields.lookup "count" = none →
      (search_jobs c what o (.success (.obj fields))).1 =
        .success (.obj [("count", .num 0), ("results", .arr [])])) ∧
    (∀ n : Int, fields.lookup "results" = none →
      fields.lookup "count" = some (.num n) →
      (search_jobs c what o (.success (.obj fields))).1 =
        .success (.obj [("count", .num n), ("results", .arr [])])) ∧
    (∀ (items jobs : List Json), fields.lookup "count" = none →
      fields.lookup "results" = some (.arr items) →
      stripSalaryAll (stripItems items) = some jobs →
      (search_jobs c what o (.success (.obj fields))).1 =
        .success (.obj [("count", .num 0), ("results", .arr jobs)])) := by
  have hc : ¬(c.app_id = "" ∨ c.app_key = "") := not_or.mpr ⟨hid, hkey⟩
  have hrun : (search_jobs c what o (.success (.obj fields))).1 =
      searchNormalize (.obj fields) := by simp [search_jobs, hc]
  have e1 : (stripFields fields).lookup "results" =
      (fields.lookup "results").map remove_class_fields :=
    lookup_stripFields (by decide) fields
  have e2 : (stripFields fields).lookup "count" =
      (fields.lookup "count").map remove_class_fields :=
    lookup_stripFields (by decide) fields
  refine ⟨?_, ?_, ?_⟩
  · intro h1 h2
    rw [hrun]
    exact @searchNormalize_formula fields [] [] 0
      (by rw [e1, h1]; rfl) rfl (by rw [e2, h2]; rfl)
  · intro n h1 h2
    rw [hrun]
    exact @searchNormalize_formula fields [] [] n
      (by rw [e1, h1]; rfl) rfl (by rw [e2, h2]; rfl)
  · intro items jobs h1 h2 hstrip
    rw [hrun]
    exact @searchNormalize_formula fields (stripItems items) jobs 0
      (by rw [e1, h2]; rfl) hstrip (by rw [e2, h1]; rfl)

/-- Witness for C10: a body lacking both keys yields `count 0, results []`. -/
theorem search_missing_keys_defaults_witness :
    (search_jobs testCreds "x" defaultSearchOpts (.success (.obj [("other", .str "v")]))).1 =
      .success (.obj [("count", .num 0), ("results", .arr [])]) :=
  (search_missing_keys_defaults testCreds (by decide) (by decide) "x"
    defaultSearchOpts [("other", .str "v")]).1 rfl rfl

end Adzuna
